import Mathlib

/-!
Verification of the Google Drive MCP server (`src/gdrive_mcp_server/server.py`)
against its natural-language specification.

The shallow embedding models the two components the spec documents:

* the credential resolver `GoogleDriveClient._get_credentials`, with its
  extension-driven loader ordering, fallback chain, and refresh path;
* the storage gateway operations `GoogleDriveClient.search_files` and
  `GoogleDriveClient.get_file`, with the response reshaping helper
  `GoogleDriveClient._format_search_response`.

External effects (filesystem, the two loaders, the provider API, the token
refresh endpoint) are passed in as explicit environments recording the outcome
each external call would produce; exceptions raised by external calls are
`Except.error` values carrying the exception description `str(exc)`.
-/

namespace GDrive

/-! ### Credentials (google.oauth2.credentials.Credentials)

The server branches on three library attributes of a loaded credential:
`valid`, `expired` and `refresh_token`.  We record the access token, the
expiry marker and the optional refresh token; `valid` models the library
property "token present and not expired". -/

structure Credentials where
  token : Option String
  expired : Bool
  refresh_token : Option String
deriving Repr, DecidableEq

/-- Models the google-auth library property `Credentials.valid`:
an access token is present and it is not expired. -/
def Credentials.valid (c : Credentials) : Bool :=
  c.token.isSome && !c.expired

/-! ### Loader ordering (`_get_credentials`, lines 48-65) -/

/-- The two credential loaders of the client:
`_load_credentials_from_json` and `_load_credentials_from_pickle`. -/
inductive Loader where
  | json
  | pickle
deriving Repr, DecidableEq

/-- Models `str.lower()` as applied to a path suffix: character-wise
lowering (ASCII letters). -/
def str_lower (s : String) : String :=
  String.mk (s.data.map Char.toLower)

/-- Embeds lines 48-65 of `_get_credentials`: the loader sequence chosen
from `self.token_path.suffix.lower()`. -/
def loader_sequence (suffix : String) : List Loader :=
  let s := str_lower suffix
  if s = ".json" then
    [Loader.json, Loader.pickle]
  else if s = ".pickle" ∨ s = ".pkl" then
    [Loader.pickle, Loader.json]
  else
    [Loader.json, Loader.pickle]

/-! ### Credential resolution (`_get_credentials`) -/

/-- An exception raised by `creds.refresh(Request())`, carrying its
description: either the provider library's `RefreshError`, or any other
exception (for example a `TransportError` from the network layer, which is
a sibling of `RefreshError`, not a subclass). -/
inductive RefreshExc where
  | refreshError (msg : String)
  | otherExc (msg : String)
deriving Repr, DecidableEq

/-- The external world seen by `_get_credentials`: whether the token file
exists, its extension, the outcome of each loader (an `Except.error` is the
exception the loader raises), and the outcome of `creds.refresh(Request())`
(an `Except.error` is the raised exception, a `RefreshExc`). -/
structure CredEnv where
  file_exists : Bool
  suffix : String
  load_json : Except String Credentials
  load_pickle : Except String Credentials
  refresh : Credentials → Except RefreshExc Credentials

/-- How `_get_credentials` fails.  The first four constructors are the
errors the function itself raises, one per `raise` site in the source,
each carrying the raised message.  `uncaught` is different: the function
catches only `RefreshError` around the refresh call, so any other
exception raised by `creds.refresh(Request())` propagates out of
`_get_credentials` unchanged — `uncaught` records that propagating
exception, not an error raised by the resolver. -/
inductive CredError where
  | notFound (msg : String)
  | couldNotLoad (msg : String)
  | refreshFailed (msg : String)
  | invalidCredentials (msg : String)
  | uncaught (msg : String)
deriving Repr, DecidableEq

/-- Dispatches a loader to its outcome in the environment. -/
def run_loader (env : CredEnv) : Loader → Except String Credentials
  | Loader.json => env.load_json
  | Loader.pickle => env.load_pickle

/-- Embeds the loop at lines 69-74: try each loader, break on the first
success, swallow every per-loader exception.  Returns the winning
credential (if any) together with the list of loaders actually attempted. -/
def try_loaders (env : CredEnv) : List Loader → Option Credentials × List Loader
  | [] => (none, [])
  | l :: rest =>
    match run_loader env l with
    | Except.ok c => (some c, [l])
    | Except.error _ =>
      let r := try_loaders env rest
      (r.1, l :: r.2)

/-- Result of `_get_credentials`, instrumented with which loaders were
attempted and how many refresh calls were issued. -/
structure ResolveOutcome where
  result : Except CredError Credentials
  loaders_attempted : List Loader
  refresh_calls : Nat
deriving Repr

/-- Embeds `GoogleDriveClient._get_credentials` (lines 40-96). -/
def get_credentials (env : CredEnv) : ResolveOutcome :=
  if env.file_exists = false then
    { result := Except.error (CredError.notFound
        "Token file not found. Run auth_setup.py first."),
      loaders_attempted := [],
      refresh_calls := 0 }
  else
    let p := try_loaders env (loader_sequence env.suffix)
    match p.1 with
    | none =>
      { result := Except.error (CredError.couldNotLoad
          "Could not load token. Supported formats: .json, .pickle"),
        loaders_attempted := p.2,
        refresh_calls := 0 }
    | some creds =>
      if creds.valid then
        { result := Except.ok creds,
          loaders_attempted := p.2,
          refresh_calls := 0 }
      else if creds.expired && creds.refresh_token.isSome then
        match env.refresh creds with
        | Except.ok c2 =>
          { result := Except.ok c2,
            loaders_attempted := p.2,
            refresh_calls := 1 }
        | Except.error (RefreshExc.refreshError e) =>
          { result := Except.error (CredError.refreshFailed
              ("Error refreshing token: " ++ e ++ ". Please re-run auth_setup.py.")),
            loaders_attempted := p.2,
            refresh_calls := 1 }
        | Except.error (RefreshExc.otherExc e) =>
          { result := Except.error (CredError.uncaught e),
            loaders_attempted := p.2,
            refresh_calls := 1 }
      else
        { result := Except.error (CredError.invalidCredentials
            "Invalid credentials. Please run auth_setup.py."),
          loaders_attempted := p.2,
          refresh_calls := 0 }

/-! ### Response reshaping (`_format_search_response`, `get_file` result)

Provider items are JSON objects; we model them as association lists from
field name to string value.  Indexing `item["k"]` raises `KeyError` when the
key is absent, which the embedding renders as `Except.error`. -/

/-- A provider file object: field name to value. -/
abbrev RawItem : Type := List (String × String)

/-- Embeds Python dict indexing `item[k]`: the value, or a raised
`KeyError` description when the key is absent. -/
def dict_get (item : RawItem) (k : String) : Except String String :=
  match List.lookup k item with
  | some v => Except.ok v
  | none => Except.error ("KeyError: " ++ k)

/-- The four-field projection both operations build, with the output keys
`id`, `name`, `mime_type`, `web_view_link` of the source rendered as the
structure fields. -/
structure FileSummary where
  id : String
  name : String
  mimeType : String
  webViewLink : String
deriving Repr, DecidableEq

/-- Embeds the dict literal of lines 186-191 (and 171-176): read the four
provider fields in source order; the first missing field raises its
`KeyError`. -/
def project_item (item : RawItem) : Except String FileSummary :=
  match dict_get item "id" with
  | Except.error e => Except.error e
  | Except.ok i =>
    match dict_get item "name" with
    | Except.error e => Except.error e
    | Except.ok n =>
      match dict_get item "mimeType" with
      | Except.error e => Except.error e
      | Except.ok m =>
        match dict_get item "webViewLink" with
        | Except.error e => Except.error e
        | Except.ok w =>
          Except.ok { id := i, name := n, mimeType := m, webViewLink := w }

/-- Embeds the list comprehension of lines 185-193: project each provider
item in order; the first missing field aborts with its `KeyError`. -/
def project_files : List RawItem → Except String (List FileSummary)
  | [] => Except.ok []
  | item :: rest =>
    match project_item item with
    | Except.error e => Except.error e
    | Except.ok s => (project_files rest).map (fun l => s :: l)

/-- The provider response to `files().list(...).execute()`: the `files`
key (absent defaults to `[]` via `response.get`) and the optional
`nextPageToken` key. -/
structure SearchResponse where
  files : Option (List RawItem)
  nextPageToken : Option String

/-- The reshaped search payload: output keys `files` and
`next_page_token` of the source rendered as structure fields. -/
structure SearchOutput where
  files : List FileSummary
  nextPageToken : Option String
deriving Repr, DecidableEq

/-- Embeds `_format_search_response` (lines 183-198). -/
def format_search_response (resp : SearchResponse) : Except String SearchOutput :=
  match project_files (resp.files.getD []) with
  | Except.error e => Except.error e
  | Except.ok fs => Except.ok { files := fs, nextPageToken := resp.nextPageToken }

/-! ### search_files (lines 131-148) -/

/-- The request `search_files` builds for `files().list`. -/
structure ListRequest where
  q : String
  pageSize : Nat
  pageToken : Option String
  fields : String
deriving Repr, DecidableEq

/-- A single-quote character, used in the provider query string. -/
def squote : String := (Char.ofNat 39).toString

/-- Embeds the argument construction of lines 138-142. -/
def build_list_request (query : String) (page_size : Nat)
    (page_token : Option String) : ListRequest :=
  { q := "name contains " ++ squote ++ query ++ squote,
    pageSize := page_size,
    pageToken := page_token,
    fields := "nextPageToken, files(id, name, mimeType, webViewLink)" }

/-- What a tool operation returns: a success payload, or the
`\x7berror: str(exc)\x7d` object built at the operation boundary. -/
inductive SearchCallResult where
  | ok (r : SearchOutput)
  | err (msg : String)
deriving Repr, DecidableEq

/-- Embeds `GoogleDriveClient.search_files` (lines 131-148).  `provider`
is the outcome of `files().list(...).execute()` on the built request; an
`Except.error` is the exception it raises. -/
def search_files (provider : ListRequest → Except String SearchResponse)
    (query : String) (page_size : Nat) (page_token : Option String) :
    SearchCallResult :=
  match provider (build_list_request query page_size page_token) with
  | Except.error e => SearchCallResult.err e
  | Except.ok resp =>
    match format_search_response resp with
    | Except.error e => SearchCallResult.err e
    | Except.ok out => SearchCallResult.ok out

/-! ### UTF-8 decoding with replacement

`get_file` decodes the downloaded bytes with
`bytes.decode("utf-8", errors="replace")`.  We model the decoder CPython
uses: invalid byte sequences are replaced, one U+FFFD per maximal subpart
of an invalid sequence, and decoding resumes at the first offending byte. -/

/-- The replacement character U+FFFD. -/
def replChar : Char := Char.ofNat 0xFFFD

/-- Is `b` a UTF-8 continuation byte (0x80-0xBF)? -/
def is_cont (b : Nat) : Bool := 0x80 ≤ b && b ≤ 0xBF

/-- Valid range for the first continuation byte after a three-byte lead,
excluding overlong encodings (lead 0xE0) and surrogates (lead 0xED). -/
def cont1_ok3 (lead c1 : Nat) : Bool :=
  if lead = 0xE0 then 0xA0 ≤ c1 && c1 ≤ 0xBF
  else if lead = 0xED then 0x80 ≤ c1 && c1 ≤ 0x9F
  else is_cont c1

/-- Valid range for the first continuation byte after a four-byte lead,
excluding overlong encodings (lead 0xF0) and values above U+10FFFF
(lead 0xF4). -/
def cont1_ok4 (lead c1 : Nat) : Bool :=
  if lead = 0xF0 then 0x90 ≤ c1 && c1 ≤ 0xBF
  else if lead = 0xF4 then 0x80 ≤ c1 && c1 ≤ 0x8F
  else is_cont c1

/-- Models `bytes.decode("utf-8", errors="replace")`: each maximal subpart
of an ill-formed sequence becomes one U+FFFD and decoding restarts at the
first invalid byte. -/
def utf8_decode_replace : List Nat → List Char
  | [] => []
  | b :: rest =>
    if b < 0x80 then
      Char.ofNat b :: utf8_decode_replace rest
    else if 0xC2 ≤ b && b ≤ 0xDF then
      match rest with
      | [] => [replChar]
      | c1 :: rest1 =>
        if is_cont c1 then
          Char.ofNat ((b % 0x20) * 0x40 + c1 % 0x40) :: utf8_decode_replace rest1
        else
          replChar :: utf8_decode_replace (c1 :: rest1)
    else if 0xE0 ≤ b && b ≤ 0xEF then
      match rest with
      | [] => [replChar]
      | c1 :: rest1 =>
        if cont1_ok3 b c1 then
          match rest1 with
          | [] => [replChar]
          | c2 :: rest2 =>
            if is_cont c2 then
              Char.ofNat ((b % 0x10) * 0x1000 + (c1 % 0x40) * 0x40 + c2 % 0x40) ::
                utf8_decode_replace rest2
            else
              replChar :: utf8_decode_replace (c2 :: rest2)
        else
          replChar :: utf8_decode_replace (c1 :: rest1)
    else if 0xF0 ≤ b && b ≤ 0xF4 then
      match rest with
      | [] => [replChar]
      | c1 :: rest1 =>
        if cont1_ok4 b c1 then
          match rest1 with
          | [] => [replChar]
          | c2 :: rest2 =>
            if is_cont c2 then
              match rest2 with
              | [] => [replChar]
              | c3 :: rest3 =>
                if is_cont c3 then
                  Char.ofNat ((b % 8) * 0x40000 + (c1 % 0x40) * 0x1000 +
                      (c2 % 0x40) * 0x40 + c3 % 0x40) ::
                    utf8_decode_replace rest3
                else
                  replChar :: utf8_decode_replace (c3 :: rest3)
            else
              replChar :: utf8_decode_replace (c2 :: rest2)
        else
          replChar :: utf8_decode_replace (c1 :: rest1)
    else
      replChar :: utf8_decode_replace rest

/-! ### get_file (lines 150-181) -/

/-- The fetched record `\x7bmetadata, content\x7d`. -/
structure FileContent where
  metadata : FileSummary
  content : String
deriving Repr, DecidableEq

/-- Result of `get_file`: success payload or boundary error object. -/
inductive GetFileResult where
  | ok (fc : FileContent)
  | err (msg : String)
deriving Repr, DecidableEq

/-- The external world seen by `get_file` for a file id: the outcome of the
metadata call `files().get(...).execute()`, and the sequence of
`downloader.next_chunk()` outcomes (each either raises, or appends a block
of bytes to the buffer; the last list entry is the one that reports done). -/
structure DriveEnv where
  metadata : String → Except String RawItem
  media : String → List (Except String (List Nat))

/-- Embeds the download loop of lines 162-168: accumulate chunk bytes in
order; the first raising chunk aborts with its exception. -/
def download_chunks : List (Except String (List Nat)) → Except String (List Nat)
  | [] => Except.ok []
  | Except.error e :: _ => Except.error e
  | Except.ok bs :: rest =>
    match download_chunks rest with
    | Except.error e => Except.error e
    | Except.ok acc => Except.ok (bs ++ acc)

/-- Embeds `GoogleDriveClient.get_file` (lines 150-181): metadata call,
then the chunked download, then the result dict whose metadata fields are
read from the metadata object and whose content is the replace-decoded
buffer; any exception on the way is caught into an error object. -/
def get_file (env : DriveEnv) (file_id : String) : GetFileResult :=
  match env.metadata file_id with
  | Except.error e => GetFileResult.err e
  | Except.ok md =>
    match download_chunks (env.media file_id) with
    | Except.error e => GetFileResult.err e
    | Except.ok bytes =>
      match project_item md with
      | Except.error e => GetFileResult.err e
      | Except.ok summ =>
        GetFileResult.ok
          { metadata := summ,
            content := String.mk (utf8_decode_replace bytes) }

/-! ### Helper lemmas -/

/-- Unfolding of `get_credentials` once a loader has produced a credential. -/
theorem get_credentials_loaded (env : CredEnv) (c : Credentials)
    (hex : env.file_exists = true)
    (hload : (try_loaders env (loader_sequence env.suffix)).1 = some c) :
    get_credentials env =
      if c.valid then
        { result := Except.ok c,
          loaders_attempted := (try_loaders env (loader_sequence env.suffix)).2,
          refresh_calls := 0 }
      else if c.expired && c.refresh_token.isSome then
        match env.refresh c with
        | Except.ok c2 =>
          { result := Except.ok c2,
            loaders_attempted := (try_loaders env (loader_sequence env.suffix)).2,
            refresh_calls := 1 }
        | Except.error (RefreshExc.refreshError e) =>
          { result := Except.error (CredError.refreshFailed
              ("Error refreshing token: " ++ e ++ ". Please re-run auth_setup.py.")),
            loaders_attempted := (try_loaders env (loader_sequence env.suffix)).2,
            refresh_calls := 1 }
        | Except.error (RefreshExc.otherExc e) =>
          { result := Except.error (CredError.uncaught e),
            loaders_attempted := (try_loaders env (loader_sequence env.suffix)).2,
            refresh_calls := 1 }
      else
        { result := Except.error (CredError.invalidCredentials
            "Invalid credentials. Please run auth_setup.py."),
          loaders_attempted := (try_loaders env (loader_sequence env.suffix)).2,
          refresh_calls := 0 } := by
  unfold get_credentials
  simp only [hex, Bool.true_eq_false, if_false, hload]

/-- The loaders-attempted trace of `get_credentials` is that of the fallback
loop, in every branch after the loop. -/
theorem get_credentials_attempted (env : CredEnv) (hex : env.file_exists = true) :
    (get_credentials env).loaders_attempted =
      (try_loaders env (loader_sequence env.suffix)).2 := by
  unfold get_credentials
  simp only [hex, Bool.true_eq_false, if_false]
  rcases h : (try_loaders env (loader_sequence env.suffix)).1 with _ | c
  · simp [h]
  · simp only [h]
    split
    · rfl
    · split
      · split <;> rfl
      · rfl

/-- `dict_get` succeeds exactly on present keys. -/
theorem dict_get_ok (item : RawItem) (k v : String) :
    dict_get item k = Except.ok v ↔ List.lookup k item = some v := by
  unfold dict_get
  rcases h : List.lookup k item with _ | w <;> simp

/-- A successful projection reads exactly the four provider fields. -/
theorem project_item_ok_lookup (item : RawItem) (s : FileSummary)
    (h : project_item item = Except.ok s) :
    List.lookup "id" item = some s.id ∧
    List.lookup "name" item = some s.name ∧
    List.lookup "mimeType" item = some s.mimeType ∧
    List.lookup "webViewLink" item = some s.webViewLink := by
  unfold project_item at h
  rcases h1 : dict_get item "id" with e | i <;> rw [h1] at h
  · exact absurd h (by simp)
  rcases h2 : dict_get item "name" with e | n <;> rw [h2] at h
  · exact absurd h (by simp)
  rcases h3 : dict_get item "mimeType" with e | m <;> rw [h3] at h
  · exact absurd h (by simp)
  rcases h4 : dict_get item "webViewLink" with e | w <;> rw [h4] at h
  · exact absurd h (by simp)
  obtain rfl : ({ id := i, name := n, mimeType := m, webViewLink := w } : FileSummary) = s :=
    by simpa using h
  exact ⟨(dict_get_ok item "id" i).1 h1, (dict_get_ok item "name" n).1 h2,
    (dict_get_ok item "mimeType" m).1 h3, (dict_get_ok item "webViewLink" w).1 h4⟩

/-- An item missing one of the four fields never projects successfully. -/
theorem project_item_miss (item : RawItem)
    (h : List.lookup "id" item = none ∨ List.lookup "name" item = none ∨
         List.lookup "mimeType" item = none ∨ List.lookup "webViewLink" item = none) :
    ∀ s, project_item item ≠ Except.ok s := by
  intro s hok
  obtain ⟨h1, h2, h3, h4⟩ := project_item_ok_lookup item s hok
  rcases h with h | h | h | h <;> simp_all

/-- A successful batch projection means every item projected. -/
theorem project_files_ok_mem (l : List RawItem) (fs : List FileSummary)
    (h : project_files l = Except.ok fs) :
    ∀ item ∈ l, ∃ s, project_item item = Except.ok s := by
  induction l generalizing fs with
  | nil => simp
  | cons a rest ih =>
    intro item hmem
    unfold project_files at h
    rcases ha : project_item a with e | s <;> rw [ha] at h
    · exact absurd h (by simp)
    · rcases hr : project_files rest with e | fs2 <;> rw [hr] at h
      · exact absurd h (by simp [Except.map])
      · rcases List.mem_cons.mp hmem with rfl | hmem2
        · exact ⟨s, ha⟩
        · exact ih fs2 hr item hmem2

/-- A complete download is the concatenation of all-successful chunks. -/
theorem download_chunks_ok_mem (chunks : List (Except String (List Nat)))
    (bs : List Nat) (h : download_chunks chunks = Except.ok bs) :
    ∀ c ∈ chunks, ∃ b, c = Except.ok b := by
  induction chunks generalizing bs with
  | nil => simp
  | cons a rest ih =>
    intro c hmem
    rcases a with e | b
    · exact absurd h (by simp [download_chunks])
    · unfold download_chunks at h
      rcases hr : download_chunks rest with e | acc <;> rw [hr] at h
      · exact absurd h (by simp)
      · rcases List.mem_cons.mp hmem with rfl | hmem2
        · exact ⟨b, rfl⟩
        · exact ih acc hr c hmem2

/-- The first raising chunk aborts the download with its exception. -/
theorem download_chunks_first_error (l1 : List (Except String (List Nat)))
    (e : String) (l2 : List (Except String (List Nat)))
    (hok : ∀ c ∈ l1, ∃ b, c = Except.ok b) :
    download_chunks (l1 ++ Except.error e :: l2) = Except.error e := by
  induction l1 with
  | nil => rfl
  | cons a rest ih =>
    obtain ⟨b, rfl⟩ := hok a (List.mem_cons_self a rest)
    have := ih (fun c hc => hok c (List.mem_cons_of_mem _ hc))
    simp only [List.cons_append]
    unfold download_chunks
    rw [this]

/-- The loader ordering puts the JSON loader first whenever the lowered
extension is not one of the pickle extensions. -/
theorem loader_sequence_json_first (s : String)
    (h1 : str_lower s ≠ ".pickle") (h2 : str_lower s ≠ ".pkl") :
    loader_sequence s = [Loader.json, Loader.pickle] := by
  unfold loader_sequence
  by_cases hj : str_lower s = ".json" <;> simp_all

/-! ### Claims about the credential resolver -/

/-- C5: the loader ordering is a function of the (lowercased) file
extension alone: `.pickle`/`.pkl` put the legacy pickle loader first,
everything else (including `.json`) puts the JSON loader first, and both
loaders appear in every ordering. -/
theorem c5_loader_ordering (s : String) :
    (str_lower s = ".pickle" ∨ str_lower s = ".pkl" →
      loader_sequence s = [Loader.pickle, Loader.json]) ∧
    (str_lower s ≠ ".pickle" ∧ str_lower s ≠ ".pkl" →
      loader_sequence s = [Loader.json, Loader.pickle]) ∧
    Loader.json ∈ loader_sequence s ∧ Loader.pickle ∈ loader_sequence s := by
  refine ⟨?_, fun h => loader_sequence_json_first s h.1 h.2, ?_, ?_⟩ <;>
    unfold loader_sequence <;>
      by_cases h1 : str_lower s = ".json" <;>
        by_cases h2 : str_lower s = ".pickle" ∨ str_lower s = ".pkl" <;>
          simp_all

/-- Concrete instances of C5: a `.PKL` extension lowercases to `.pkl` and
puts the pickle loader first; `.json` and the unrecognized `.txt` put the
JSON loader first. -/
theorem c5_loader_ordering_witness :
    loader_sequence ".PKL" = [Loader.pickle, Loader.json] ∧
    loader_sequence ".json" = [Loader.json, Loader.pickle] ∧
    loader_sequence ".txt" = [Loader.json, Loader.pickle] :=
  ⟨(c5_loader_ordering ".PKL").1 (Or.inr (by decide)),
   (c5_loader_ordering ".json").2.1 ⟨by decide, by decide⟩,
   (c5_loader_ordering ".txt").2.1 ⟨by decide, by decide⟩⟩

/-- C9: when no file exists at the token path, resolution fails with the
not-found error before any loader is attempted. -/
theorem c9_missing_file (env : CredEnv) (h : env.file_exists = false) :
    (∃ msg, (get_credentials env).result = Except.error (CredError.notFound msg)) ∧
    (get_credentials env).loaders_attempted = [] := by
  unfold get_credentials
  simp [h]

/-- A concrete environment with no token file. -/
def c9_env : CredEnv :=
  { file_exists := false, suffix := ".json",
    load_json := Except.error "unreached",
    load_pickle := Except.error "unreached",
    refresh := fun c => Except.ok c }

/-- Concrete instance of C9. -/
theorem c9_missing_file_witness :
    (∃ msg, (get_credentials c9_env).result = Except.error (CredError.notFound msg)) ∧
    (get_credentials c9_env).loaders_attempted = [] :=
  c9_missing_file c9_env rfl

/-- C8: a loaded credential with a present, unexpired access token is
returned unchanged and no refresh call is issued. -/
theorem c8_valid_no_refresh (env : CredEnv) (c : Credentials)
    (hex : env.file_exists = true)
    (hload : (try_loaders env (loader_sequence env.suffix)).1 = some c)
    (htok : c.token.isSome = true) (hexp : c.expired = false) :
    (get_credentials env).result = Except.ok c ∧
    (get_credentials env).refresh_calls = 0 := by
  have hv : c.valid = true := by simp [Credentials.valid, htok, hexp]
  rw [get_credentials_loaded env c hex hload]
  simp [hv]

/-- A valid credential, loaded from JSON, with no refresh needed. -/
def c8_env : CredEnv :=
  { file_exists := true, suffix := ".json",
    load_json := Except.ok { token := some "tok", expired := false, refresh_token := some "r" },
    load_pickle := Except.error "unreached",
    refresh := fun _ => Except.error (RefreshExc.otherExc "refresh must not be called") }

/-- Concrete instance of C8. -/
theorem c8_valid_no_refresh_witness :
    (get_credentials c8_env).result =
      Except.ok { token := some "tok", expired := false, refresh_token := some "r" } ∧
    (get_credentials c8_env).refresh_calls = 0 :=
  c8_valid_no_refresh c8_env _ rfl rfl rfl rfl

/-- C2 (amended): a counterexample environment first.  An expired
credential with a refresh token whose refresh call raises a
non-`RefreshError` exception (a transport failure). -/
def c2_transport_env : CredEnv :=
  { file_exists := true, suffix := ".json",
    load_json := Except.ok { token := some "old", expired := true, refresh_token := some "r" },
    load_pickle := Except.error "unreached",
    refresh := fun _ =>
      Except.error (RefreshExc.otherExc "TransportError: connection failed") }

/-- Refutes C2 as stated: the refresh call fails, but with an exception
that is not a `RefreshError`, so `_get_credentials` does not convert it
into its refresh-failed `CredentialError` naming `auth_setup.py` — the
exception propagates uncaught, unchanged. -/
theorem c2_counterexample :
    c2_transport_env.refresh
        { token := some "old", expired := true, refresh_token := some "r" } =
      Except.error (RefreshExc.otherExc "TransportError: connection failed") ∧
    (get_credentials c2_transport_env).result =
      Except.error (CredError.uncaught "TransportError: connection failed") :=
  ⟨rfl, rfl⟩

/-- C2 (amended): for a loaded credential whose token is expired — with a
refresh token, exactly one refresh call is made; success returns the
refreshed credential; a refresh failure raising the provider's
`RefreshError` yields the refresh-failed error naming `auth_setup.py`;
any other exception raised by the refresh call propagates uncaught; and
without a refresh token, resolution fails with the invalid-credentials
error. -/
theorem c2_expired_refresh (env : CredEnv) (c : Credentials)
    (hex : env.file_exists = true)
    (hload : (try_loaders env (loader_sequence env.suffix)).1 = some c)
    (hexp : c.expired = true) :
    (c.refresh_token.isSome = true →
      (get_credentials env).refresh_calls = 1 ∧
      (∀ c2, env.refresh c = Except.ok c2 →
        (get_credentials env).result = Except.ok c2) ∧
      (∀ e, env.refresh c = Except.error (RefreshExc.refreshError e) →
        (get_credentials env).result = Except.error (CredError.refreshFailed
          ("Error refreshing token: " ++ e ++ ". Please re-run auth_setup.py."))) ∧
      (∀ e, env.refresh c = Except.error (RefreshExc.otherExc e) →
        (get_credentials env).result = Except.error (CredError.uncaught e))) ∧
    (c.refresh_token = none →
      (get_credentials env).result = Except.error (CredError.invalidCredentials
        "Invalid credentials. Please run auth_setup.py.")) := by
  have hv : c.valid = false := by simp [Credentials.valid, hexp]
  rw [get_credentials_loaded env c hex hload]
  constructor
  · intro hrt
    rcases henv : env.refresh c with e | c2
    · rcases e with e | e <;> simp [hv, hexp, hrt, henv]
    · simp [hv, hexp, hrt, henv]
  · intro hrt
    simp [hv, hexp, hrt]

/-- An expired credential with a refresh token; refreshing succeeds. -/
def c2_env : CredEnv :=
  { file_exists := true, suffix := ".json",
    load_json := Except.ok { token := some "old", expired := true, refresh_token := some "r" },
    load_pickle := Except.error "unreached",
    refresh := fun _ =>
      Except.ok { token := some "new", expired := false, refresh_token := some "r" } }

/-- Concrete instance of C2: the refresh path runs exactly once and
returns the refreshed credential. -/
theorem c2_expired_refresh_witness :
    (get_credentials c2_env).refresh_calls = 1 ∧
    (get_credentials c2_env).result =
      Except.ok { token := some "new", expired := false, refresh_token := some "r" } := by
  have h := (c2_expired_refresh c2_env
    { token := some "old", expired := true, refresh_token := some "r" }
    rfl rfl rfl).1 rfl
  exact ⟨h.1, h.2.1 _ rfl⟩

/-- C4 (amended): a counterexample first.  For a `.pkl` path the pickle
loader is ordered first, so even though JSON loading would succeed, the
legacy loader is attempted (and here fails) before it: JSON loading
succeeding does not prevent a legacy-format attempt. -/
def c4_env : CredEnv :=
  { file_exists := true, suffix := ".pkl",
    load_json := Except.ok { token := some "tok", expired := false, refresh_token := none },
    load_pickle := Except.error "corrupt pickle",
    refresh := fun c => Except.ok c }

/-- Refutes C4 as stated: in `c4_env` JSON loading succeeds, yet the
legacy pickle loader is attempted (first). -/
theorem c4_counterexample :
    c4_env.load_json =
      Except.ok { token := some "tok", expired := false, refresh_token := none } ∧
    Loader.pickle ∈ (get_credentials c4_env).loaders_attempted ∧
    (get_credentials c4_env).loaders_attempted = [Loader.pickle, Loader.json] :=
  ⟨rfl, by decide, rfl⟩

/-- C4 as amended: the first loader in the determined order that succeeds
wins; each per-loader failure is swallowed and the next loader attempted;
if both loaders fail, resolution fails with the could-not-load error; and
for a file whose extension puts the JSON loader first (`.json` or
unrecognized), a successful JSON load means the legacy loader is never
attempted. -/
theorem c4_first_success_wins (env : CredEnv) (hex : env.file_exists = true) :
    (∀ c, env.load_json = Except.ok c →
      str_lower env.suffix ≠ ".pickle" → str_lower env.suffix ≠ ".pkl" →
      (get_credentials env).loaders_attempted = [Loader.json]) ∧
    (∀ e1 e2, env.load_json = Except.error e1 → env.load_pickle = Except.error e2 →
      (get_credentials env).result = Except.error (CredError.couldNotLoad
        "Could not load token. Supported formats: .json, .pickle") ∧
      (get_credentials env).loaders_attempted = loader_sequence env.suffix) ∧
    (∀ l rest c, run_loader env l = Except.ok c →
      try_loaders env (l :: rest) = (some c, [l])) ∧
    (∀ l rest e, run_loader env l = Except.error e →
      try_loaders env (l :: rest) =
        ((try_loaders env rest).1, l :: (try_loaders env rest).2)) := by
  refine ⟨?_, ?_, ?_, ?_⟩
  · intro c hj h1 h2
    have hseq : loader_sequence env.suffix = [Loader.json, Loader.pickle] :=
      loader_sequence_json_first env.suffix h1 h2
    rw [get_credentials_attempted env hex, hseq]
    simp [try_loaders, run_loader, hj]
  · intro e1 e2 hj hp
    have htry : ∀ seq : List Loader, try_loaders env seq = (none, seq) := by
      intro seq
      induction seq with
      | nil => rfl
      | cons l rest ih =>
        cases l <;> simp [try_loaders, run_loader, hj, hp, ih]
    constructor
    · unfold get_credentials
      simp [hex, htry]
    · rw [get_credentials_attempted env hex, htry]
  · intro l rest c h
    simp [try_loaders, h]
  · intro l rest e h
    simp [try_loaders, h]

/-- Concrete instance of the amended C4: for a `.json` path with a
succeeding JSON loader, only the JSON loader is attempted. -/
theorem c4_first_success_wins_witness :
    (get_credentials c8_env).loaders_attempted = [Loader.json] :=
  (c4_first_success_wins c8_env rfl).1 _ rfl (by decide) (by decide)

/-! ### Concrete scenarios used by the gateway claims -/

/-- A fetch whose metadata call raises. -/
def meta_err_env : DriveEnv :=
  { metadata := fun _ => Except.error "HttpError 404",
    media := fun _ => [] }

/-- A fetch whose second download chunk raises after a first good chunk. -/
def chunk_err_env : DriveEnv :=
  { metadata := fun _ => Except.ok
      [("id", "f1"), ("name", "n"), ("mimeType", "m"), ("webViewLink", "w")],
    media := fun _ => [Except.ok [0x61], Except.error "connection reset"] }

/-- The two-file, no-token provider response of the concrete C3 scenario;
the first item carries extra provider fields. -/
def two_file_resp : SearchResponse :=
  { files := some
      [[("id", "f1"), ("name", "report one"), ("mimeType", "text/plain"),
        ("webViewLink", "link1"), ("size", "10"), ("kind", "drivefile")],
       [("id", "f2"), ("name", "report two"), ("mimeType", "application/pdf"),
        ("webViewLink", "link2")]],
    nextPageToken := none }

/-- The projection of the first item of `two_file_resp`. -/
def two_file_sum1 : FileSummary :=
  { id := "f1", name := "report one", mimeType := "text/plain", webViewLink := "link1" }

/-- The projection of the second item of `two_file_resp`. -/
def two_file_sum2 : FileSummary :=
  { id := "f2", name := "report two", mimeType := "application/pdf", webViewLink := "link2" }

/-- A provider response whose second item lacks `webViewLink`. -/
def missing_field_resp : SearchResponse :=
  { files := some
      [[("id", "f1"), ("name", "a"), ("mimeType", "text/plain"), ("webViewLink", "l1")],
       [("id", "f2"), ("name", "b"), ("mimeType", "text/plain")]],
    nextPageToken := none }

/-- The provider behaviour of the concrete C7 scenario: metadata succeeds
and the media download yields the bytes of the sequence FF FE 20 68 65 6C
6C 6F over two chunks. -/
def c7_env : DriveEnv :=
  { metadata := fun _ => Except.ok
      [("id", "abc123"), ("name", "hello.txt"), ("mimeType", "text/plain"),
       ("webViewLink", "linkA")],
    media := fun _ =>
      [Except.ok [0xFF, 0xFE], Except.ok [0x20, 0x68, 0x65, 0x6C, 0x6C, 0x6F]] }

/-! ### Claims about the storage gateway -/

/-- C1: no provider exception escapes the two operations.  A raising
provider call turns into the error object carrying the exception
description — for search, for the metadata step of fetch, and for the
download step of fetch — and every call returns either a success payload
or an error object. -/
theorem c1_no_exception_propagation :
    (∀ (e : String) q n t,
      search_files (fun _ => Except.error e) q n t = SearchCallResult.err e) ∧
    (∀ (prov : ListRequest → Except String SearchResponse) q n t,
      (∃ out, search_files prov q n t = SearchCallResult.ok out) ∨
      (∃ msg, search_files prov q n t = SearchCallResult.err msg)) ∧
    (∀ (env : DriveEnv) fid,
      (∃ fc, get_file env fid = GetFileResult.ok fc) ∨
      (∃ msg, get_file env fid = GetFileResult.err msg)) ∧
    (∀ (env : DriveEnv) fid e, env.metadata fid = Except.error e →
      get_file env fid = GetFileResult.err e) ∧
    (∀ (env : DriveEnv) fid md e, env.metadata fid = Except.ok md →
      download_chunks (env.media fid) = Except.error e →
      get_file env fid = GetFileResult.err e) := by
  refine ⟨?_, ?_, ?_, ?_, ?_⟩
  · intro e q n t
    rfl
  · intro prov q n t
    rcases h : search_files prov q n t with out | msg
    · exact Or.inl ⟨out, rfl⟩
    · exact Or.inr ⟨msg, rfl⟩
  · intro env fid
    rcases h : get_file env fid with fc | msg
    · exact Or.inl ⟨fc, rfl⟩
    · exact Or.inr ⟨msg, rfl⟩
  · intro env fid e h
    simp only [get_file, h]
  · intro env fid md e hmd hdl
    simp only [get_file, hmd, hdl]

/-- Concrete instance of C1: a network fault in search, in the metadata
call, and in the second download chunk each surface as the error object. -/
theorem c1_no_exception_propagation_witness :
    search_files (fun _ => Except.error "HttpError 500") "q" 10 none =
      SearchCallResult.err "HttpError 500" ∧
    get_file meta_err_env "f1" = GetFileResult.err "HttpError 404" ∧
    get_file chunk_err_env "f1" = GetFileResult.err "connection reset" :=
  ⟨c1_no_exception_propagation.1 "HttpError 500" "q" 10 none,
    c1_no_exception_propagation.2.2.2.1 meta_err_env "f1" "HttpError 404" rfl,
    c1_no_exception_propagation.2.2.2.2 chunk_err_env "f1"
      [("id", "f1"), ("name", "n"), ("mimeType", "m"), ("webViewLink", "w")]
      "connection reset" rfl rfl⟩

/-- C3: a successful search result is exactly the in-order four-field
projection of the provider items with the next-page token passed through;
each projected entry carries exactly the item's four recognized fields
(everything else dropped); and the concrete two-file, no-token instance. -/
theorem c3_search_shape :
    (∀ (resp : SearchResponse) q n t (out : SearchOutput),
      search_files (fun _ => Except.ok resp) q n t = SearchCallResult.ok out →
      project_files (resp.files.getD []) = Except.ok out.files ∧
      out.nextPageToken = resp.nextPageToken) ∧
    (∀ (item : RawItem) (s : FileSummary),
      project_item item = Except.ok s →
      List.lookup "id" item = some s.id ∧
      List.lookup "name" item = some s.name ∧
      List.lookup "mimeType" item = some s.mimeType ∧
      List.lookup "webViewLink" item = some s.webViewLink) ∧
    search_files (fun _ => Except.ok two_file_resp) "report" 5 none =
      SearchCallResult.ok { files := [two_file_sum1, two_file_sum2], nextPageToken := none } := by
  refine ⟨?_, project_item_ok_lookup, rfl⟩
  intro resp q n t out h
  simp only [search_files, format_search_response] at h
  rcases hp : project_files (resp.files.getD []) with e | fs <;> simp only [hp] at h
  · exact absurd h (by simp)
  · obtain rfl : ({ files := fs, nextPageToken := resp.nextPageToken } : SearchOutput) = out :=
      by simpa using h
    exact ⟨rfl, rfl⟩

/-- Concrete instance of the quantified parts of C3, at the two-file
response: the output is the projection, and a successful projection of the
first (extra-field-carrying) item reads exactly its four fields. -/
theorem c3_search_shape_witness :
    project_files (two_file_resp.files.getD []) =
      Except.ok [two_file_sum1, two_file_sum2] ∧
    List.lookup "id" [("id", "f1"), ("name", "report one"), ("mimeType", "text/plain"),
      ("webViewLink", "link1"), ("size", "10"), ("kind", "drivefile")] = some "f1" :=
  ⟨(c3_search_shape.1 two_file_resp "report" 5 none
      { files := [two_file_sum1, two_file_sum2], nextPageToken := none } rfl).1,
    (c3_search_shape.2.1
      [("id", "f1"), ("name", "report one"), ("mimeType", "text/plain"),
        ("webViewLink", "link1"), ("size", "10"), ("kind", "drivefile")]
      two_file_sum1 rfl).1⟩

/-- C6: all-or-nothing fetch.  A metadata failure aborts with its error; a
failure at any chunk (all earlier chunks having succeeded) aborts with
that chunk's error; and a successful fetch implies every chunk succeeded,
the content being the decoding of the complete accumulated byte
sequence — an error result never carries content. -/
theorem c6_fetch_all_or_nothing (env : DriveEnv) (fid : String) :
    (∀ e, env.metadata fid = Except.error e →
      get_file env fid = GetFileResult.err e) ∧
    (∀ md l1 e l2, env.metadata fid = Except.ok md →
      env.media fid = l1 ++ Except.error e :: l2 →
      (∀ c ∈ l1, ∃ b, c = Except.ok b) →
      get_file env fid = GetFileResult.err e) ∧
    (∀ fc, get_file env fid = GetFileResult.ok fc →
      ∃ bytes, download_chunks (env.media fid) = Except.ok bytes ∧
        (∀ c ∈ env.media fid, ∃ b, c = Except.ok b) ∧
        fc.content = String.mk (utf8_decode_replace bytes)) := by
  refine ⟨?_, ?_, ?_⟩
  · intro e h
    simp only [get_file, h]
  · intro md l1 e l2 hmd hmedia hok
    simp only [get_file, hmd, hmedia, download_chunks_first_error l1 e l2 hok]
  · intro fc h
    simp only [get_file] at h
    rcases hmd : env.metadata fid with e | md <;> simp only [hmd] at h
    · exact absurd h (by simp)
    rcases hdl : download_chunks (env.media fid) with e | bytes <;> simp only [hdl] at h
    · exact absurd h (by simp)
    rcases hpr : project_item md with e | s <;> simp only [hpr] at h
    · exact absurd h (by simp)
    injection h with h2
    subst h2
    exact ⟨bytes, rfl, download_chunks_ok_mem _ bytes hdl, rfl⟩

/-- Concrete instance of C6: a fetch whose second chunk raises returns the
error object even though the first chunk had already delivered bytes. -/
theorem c6_fetch_all_or_nothing_witness :
    get_file chunk_err_env "f1" = GetFileResult.err "connection reset" :=
  (c6_fetch_all_or_nothing chunk_err_env "f1").2.1
    [("id", "f1"), ("name", "n"), ("mimeType", "m"), ("webViewLink", "w")]
    [Except.ok [0x61]] "connection reset" [] rfl rfl
    (by intro c hc; rw [List.mem_singleton.mp hc]; exact ⟨_, rfl⟩)

/-- The expected metadata projection of the concrete C7 scenario. -/
def c7_summary : FileSummary :=
  { id := "abc123", name := "hello.txt", mimeType := "text/plain", webViewLink := "linkA" }

/-- The expected fetched record of the concrete C7 scenario. -/
def c7_content : FileContent :=
  { metadata := c7_summary,
    content := String.mk [replChar, replChar, ' ', 'h', 'e', 'l', 'l', 'o'] }

/-- C7: the content of a successful fetch is the replace-mode UTF-8
decoding of the accumulated bytes; the byte sequence FF FE 20 68 65 6C 6C
6F decodes to two replacement markers followed by the literal text
`hello`; and the concrete fetch returns exactly that content. -/
theorem c7_decode_replace :
    (∀ (env : DriveEnv) fid fc, get_file env fid = GetFileResult.ok fc →
      ∃ bytes, download_chunks (env.media fid) = Except.ok bytes ∧
        fc.content = String.mk (utf8_decode_replace bytes)) ∧
    utf8_decode_replace [0xFF, 0xFE, 0x20, 0x68, 0x65, 0x6C, 0x6C, 0x6F] =
      [replChar, replChar, ' ', 'h', 'e', 'l', 'l', 'o'] ∧
    get_file c7_env "abc123" = GetFileResult.ok c7_content := by
  refine ⟨?_, by decide, rfl⟩
  intro env fid fc h
  simp only [get_file] at h
  rcases hmd : env.metadata fid with e | md <;> simp only [hmd] at h
  · exact absurd h (by simp)
  rcases hdl : download_chunks (env.media fid) with e | bytes <;> simp only [hdl] at h
  · exact absurd h (by simp)
  rcases hpr : project_item md with e | s <;> simp only [hpr] at h
  · exact absurd h (by simp)
  injection h with h2
  subst h2
  exact ⟨bytes, rfl, rfl⟩

/-- Concrete instance of the quantified part of C7, at `c7_env`. -/
theorem c7_decode_replace_witness :
    ∃ bytes, download_chunks (c7_env.media "abc123") = Except.ok bytes ∧
      c7_content.content = String.mk (utf8_decode_replace bytes) :=
  c7_decode_replace.1 c7_env "abc123" c7_content rfl

/-- C10: if any provider item lacks one of the four projected fields, the
whole search call returns an error object instead of a partial list. -/
theorem c10_missing_field_errors (resp : SearchResponse) (item : RawItem)
    (q : String) (n : Nat) (t : Option String)
    (hmem : item ∈ resp.files.getD [])
    (hmiss : List.lookup "id" item = none ∨ List.lookup "name" item = none ∨
             List.lookup "mimeType" item = none ∨ List.lookup "webViewLink" item = none) :
    ∃ e, search_files (fun _ => Except.ok resp) q n t = SearchCallResult.err e := by
  rcases hp : project_files (resp.files.getD []) with e | fs
  · refine ⟨e, ?_⟩
    simp only [search_files, format_search_response, hp]
  · obtain ⟨s, hs⟩ := project_files_ok_mem _ fs hp item hmem
    exact absurd hs (project_item_miss item hmiss s)

/-- Concrete instance of C10: a response whose second item lacks
`webViewLink` makes the whole search call fail. -/
theorem c10_missing_field_errors_witness :
    ∃ e, search_files (fun _ => Except.ok missing_field_resp) "q" 10 none =
      SearchCallResult.err e :=
  c10_missing_field_errors missing_field_resp
    [("id", "f2"), ("name", "b"), ("mimeType", "text/plain")]
    "q" 10 none (by simp [missing_field_resp]) (by simp)

end GDrive
